import Mathlib

/-!
Shallow embedding of the `SimpleSlideshow` custom-element widget
(TypeScript source `simple-slideshow.ts`, compiled `simple-slideshow.js`).

The widget is a mutable object; each public or private method is embedded as
a function from the widget state (plus the live geometry read from the
rendering surface) to `Option JsError × SlideshowState`: the first component
is `some e` when the method throws, and the second component is the widget
state at the moment the method returned or threw (JavaScript exceptions do
not roll back field mutations already performed, so the at-throw state is
carried explicitly).

Geometry (`getBoundingClientRect().left` / `.width`) is an external input
measured from the rendering surface; it is modelled as a `Geometry` record
passed to every method that measures.  Pixel values are integers in the
model (the widget writes offsets with `toFixed(0)`, i.e. whole pixels).
-/

namespace SimpleSlideshow

/-- Source enum `AnimationName`, values `"fade"` and `"slide"`. -/
inductive AnimationName
  | fade
  | slide
deriving DecidableEq, Repr

/-- Errors a method can raise.  `thrown msg` is an explicit
`throw new Error(msg)` in the source; `typeError` is the runtime TypeError
raised by a property access on `undefined`. -/
inductive JsError
  | thrown (msg : String)
  | typeError
deriving DecidableEq, Repr

/-- Live geometry read from the rendering surface: the viewport's and the
rail's current left edge, and the current left edge of the slide at each
ordinal (only positions `< slide count` are ever dereferenced). -/
structure Geometry where
  viewportLeft : Int
  railLeft : Int
  slideLeft : Nat → Int

/-- The widget's mutable fields.  `nSlides`/`nBullets` are the lengths of
the `slides`/`bullets` arrays (fixed after initialization for slides).
`beingDragged` models `beingDraggedRemote !== null` (the DragSession
handle), `draggable` models `draggableRemote !== null` (drag listeners
attached), `railTransitionOverride` is true while
`rail.style.transition = "all 0s linear 0s"` is in force, and
`railStyleLeft = none` models `rail.style.left = ""`. -/
structure SlideshowState where
  nSlides : Nat
  nBullets : Nat
  animation : Option AnimationName
  skipNextAutoplay : Bool
  activeIndex : Int
  dragStartingPoint : Int
  currentOffset : Int
  autoplayId : Nat
  resizeId : Nat
  touchId : Int
  beingDragged : Bool
  draggable : Bool
  railStyleLeft : Option Int
  railTransitionOverride : Bool
  slideMarks : List Bool
  bulletMarks : List Bool
deriving DecidableEq, Repr

/-- A JavaScript value read out of the `slides` array:
an element, `null`, or `undefined`. -/
inductive JsValue
  | elem (left : Int)
  | nul
  | undef
deriving DecidableEq, Repr

/-- Array read `this.slides[index]`: the array holds the `HTMLElement`s pushed at
initialization (never `null`); an out-of-range index yields `undefined`. -/
def slidesGet (count : Nat) (g : Geometry) (index : Int) : JsValue :=
  if 0 ≤ index ∧ index < (count : Int) then JsValue.elem (g.slideLeft index.toNat)
  else JsValue.undef

/-- Method `computeSlideLeft(index)`:
```
const SLIDE: HTMLElement|null = this.slides[index];
if (SLIDE === null) { throw new Error("No slide matching index"); }
return SLIDE.getBoundingClientRect().left;
```
When `SLIDE` is `undefined` (out-of-range index) the `=== null` test is
false, so the guard does not fire and the method call on `undefined`
raises a TypeError. -/
def computeSlideLeft (g : Geometry) (count : Nat) (index : Int) : Except JsError Int :=
  match slidesGet count g index with
  | JsValue.nul => Except.error (JsError.thrown ("No slide matching index"))
  | JsValue.elem left => Except.ok left
  | JsValue.undef => Except.error JsError.typeError

/-- Method `updateActive()`: toggles the `"active"` class on every slide and
bullet according to `activeIndex === index`. -/
def updateActive (s : SlideshowState) : SlideshowState :=
  { s with
    slideMarks := (List.range s.nSlides).map (fun index => s.activeIndex == (index : Int))
    bulletMarks := (List.range s.nBullets).map (fun index => s.activeIndex == (index : Int)) }

/-- Method `slideTransition()`: sets `skipNextAutoplay`, updates active marking,
and, when `animation === "slide"`, recomputes `currentOffset` from the
geometry measured at that moment and writes it to `rail.style.left`. -/
def slideTransition (g : Geometry) (s0 : SlideshowState) :
    Option JsError × SlideshowState :=
  let s1 := updateActive { s0 with skipNextAutoplay := true }
  if s1.animation = some AnimationName.slide then
    match computeSlideLeft g s1.nSlides s1.activeIndex with
    | Except.error e => (some e, s1)
    | Except.ok slideOffset =>
        let railOffset := g.railLeft
        let off := railOffset - slideOffset
        (none, { s1 with currentOffset := off, railStyleLeft := some off })
  else
    (none, s1)

/-- Method `nextSlide()`: increment, wrapping to 0 at `slides.length`,
then `slideTransition()`. -/
def nextSlide (g : Geometry) (s : SlideshowState) : Option JsError × SlideshowState :=
  let i := s.activeIndex + 1
  let i := if (s.nSlides : Int) ≤ i then 0 else i
  slideTransition g { s with activeIndex := i }

/-- Method `previousSlide()`: decrement, wrapping from 0 to `slides.length - 1`,
then `slideTransition()`. -/
def previousSlide (g : Geometry) (s : SlideshowState) : Option JsError × SlideshowState :=
  let i := if 0 < s.activeIndex then s.activeIndex - 1 else (s.nSlides : Int) - 1
  slideTransition g { s with activeIndex := i }

/-- Method `changeSlide(index)`: throws `"Out of bound index"` when
`index < 0 || slides.length <= index`, before touching any field;
otherwise sets `activeIndex` and runs `slideTransition()`. -/
def changeSlide (g : Geometry) (s : SlideshowState) (index : Int) :
    Option JsError × SlideshowState :=
  if index < 0 ∨ (s.nSlides : Int) ≤ index then
    (some (JsError.thrown ("Out of bound index")), s)
  else
    slideTransition g { s with activeIndex := index }

/-- One entry of a `TouchList` (the fields the widget reads). -/
structure TouchPoint where
  identifier : Int
  clientX : Int
deriving DecidableEq, Repr

/-- Method `dragStart(mouse_position)`: ignored while a DragSession is active
(`beingDraggedRemote !== null`); otherwise suppresses the rail transition,
records the start coordinate and opens the session (the move/end listeners
it registers are modelled by the `beingDragged` guards on the handlers). -/
def dragStart (s : SlideshowState) (mousePosition : Int) : SlideshowState :=
  if s.beingDragged then s
  else
    { s with
      railTransitionOverride := true
      dragStartingPoint := mousePosition
      beingDragged := true }

/-- Method `dragUpdate(mouse_position)`: while a session is active, sets the
suppression flag and writes `currentOffset + (mouse_position − dragStartingPoint)`
to the rail. -/
def dragUpdate (s : SlideshowState) (mousePosition : Int) : SlideshowState :=
  if s.beingDragged then
    { s with
      skipNextAutoplay := true
      railStyleLeft := some (s.currentOffset + (mousePosition - s.dragStartingPoint)) }
  else s

/-- The index-resolution loop of `dragEnd`:
```
const THRESHOLD = this.computeViewportLeft();
const LAST_INDEX = this.slides.length - 1;
let new_index = LAST_INDEX;
for (let index = 0; index < LAST_INDEX; ++index)
  if (index < new_index) {
    const LEFT = this.computeSlideLeft(index);
    if (THRESHOLD <= LEFT) new_index = index;
  }
```
-/
def dragEndScan (g : Geometry) (count : Nat) : Except JsError Int :=
  let lastIndex : Int := (count : Int) - 1
  (List.range (count - 1)).foldlM
    (fun (newIndex : Int) (index : Nat) =>
      if (index : Int) < newIndex then
        match computeSlideLeft g count (index : Int) with
        | Except.error e => Except.error e
        | Except.ok left =>
            Except.ok (if g.viewportLeft ≤ left then (index : Int) else newIndex)
      else Except.ok newIndex)
    lastIndex

/-- Method `dragEnd()`: a no-op when no session is active; otherwise restores the
rail transition, closes the session, clears the tracked touch identity,
resolves the final index by the scan loop and commits it through
`slideTransition`. -/
def dragEnd (g : Geometry) (s : SlideshowState) : Option JsError × SlideshowState :=
  if s.beingDragged = false then (none, s)
  else
    let s1 :=
      { s with
        railTransitionOverride := false
        beingDragged := false
        touchId := 0 }
    match dragEndScan g s1.nSlides with
    | Except.error e => (some e, s1)
    | Except.ok newIndex => slideTransition g { s1 with activeIndex := newIndex }

/-- Method `findTouch(touches)`: `undefined` when no touch is tracked
(`touchId === 0`), else the first entry whose identifier matches. -/
def findTouch (s : SlideshowState) (touches : List TouchPoint) : Option TouchPoint :=
  if s.touchId = 0 then none
  else touches.find? (fun t => t.identifier == s.touchId)

/-- The `"touchstart"` handler registered by `enableDragging` (attached only
while `draggableRemote !== null`): bails out if a touch is already tracked,
otherwise records the first changed touch's identifier and calls
`dragStart` with its `clientX` (or throws on an empty `TouchList`). -/
def onTouchStart (s : SlideshowState) (changedTouches : List TouchPoint) :
    Option JsError × SlideshowState :=
  if s.draggable = false then (none, s)
  else if s.touchId ≠ 0 then (none, s)
  else
    match changedTouches.head? with
    | some touch => (none, dragStart { s with touchId := touch.identifier } touch.clientX)
    | none => (some (JsError.thrown ("Empty TouchList")), s)

/-- The `"mousedown"` handler registered by `enableDragging`. -/
def onMouseDown (s : SlideshowState) (clientX : Int) : Option JsError × SlideshowState :=
  if s.draggable = false then (none, s)
  else (none, dragStart s clientX)

/-- The `"touchmove"` handler registered by `dragStart` (attached only while
the DragSession is active): updates the drag only for the tracked touch. -/
def onTouchMove (s : SlideshowState) (changedTouches : List TouchPoint) : SlideshowState :=
  if s.beingDragged = false then s
  else
    match findTouch s changedTouches with
    | some touch => dragUpdate s touch.clientX
    | none => s

/-- The `"touchend"` handler registered by `dragStart`: ends the drag only
when the tracked touch is among the changed touches. -/
def onTouchEnd (g : Geometry) (s : SlideshowState) (changedTouches : List TouchPoint) :
    Option JsError × SlideshowState :=
  if s.beingDragged = false then (none, s)
  else
    match findTouch s changedTouches with
    | some _ => dragEnd g s
    | none => (none, s)

/-- The `"mouseup"` (and `"mouseleave"`) handler registered by `dragStart`. -/
def onMouseUp (g : Geometry) (s : SlideshowState) : Option JsError × SlideshowState :=
  if s.beingDragged = false then (none, s)
  else dragEnd g s

/-- Method `disableDragging()`: a no-op when dragging is not enabled; otherwise
first `dragEnd()` (force-ending any in-progress drag), then abort the
listener group and clear the handle. -/
def disableDragging (g : Geometry) (s : SlideshowState) : Option JsError × SlideshowState :=
  if s.draggable = false then (none, s)
  else
    match dragEnd g s with
    | (some e, s') => (some e, s')
    | (none, s') => (none, { s' with draggable := false })

/-- Method `stopAutoplay()`: clears the interval when one is armed. -/
def stopAutoplay (s : SlideshowState) : SlideshowState :=
  if s.autoplayId ≠ 0 then { s with autoplayId := 0 } else s

/-- Predicate `Number.isSafeInteger(delay)` for a JavaScript number modelled as a
rational: integral with magnitude at most `2^53 − 1`. -/
def jsIsSafeInteger (q : ℚ) : Bool :=
  q.den == 1 && q.num.natAbs ≤ 2 ^ 53 - 1

/-- Method `startAutoplay(delay)`: throws on a non-safe-integer or non-positive
delay (before touching any field, so no timer is armed); otherwise stops
any existing schedule, clears the suppression flag and arms a fresh
interval (`freshId` is the positive id `setInterval` returns). -/
def startAutoplay (s : SlideshowState) (delay : ℚ) (freshId : Nat) :
    Option JsError × SlideshowState :=
  if jsIsSafeInteger delay = false ∨ delay < 1 then
    (some (JsError.thrown ("Autoplay delay must be a safe positive integer")), s)
  else
    let s := stopAutoplay s
    let s := { s with skipNextAutoplay := false }
    (none, { s with autoplayId := freshId })

/-- One tick of the interval armed by `startAutoplay`:
```
if (!this.skipNextAutoplay) { this.nextSlide(); }
this.skipNextAutoplay = false;
```
(when `nextSlide` throws, the final assignment is not reached). -/
def autoplayTick (g : Geometry) (s : SlideshowState) : Option JsError × SlideshowState :=
  if s.skipNextAutoplay = false then
    match nextSlide g s with
    | (some e, s') => (some e, s')
    | (none, s') => (none, { s' with skipNextAutoplay := false })
  else
    (none, { s with skipNextAutoplay := false })

/-- The host timer table: armed-and-not-yet-fired timeout ids, the next
fresh id `setTimeout` will hand out (browsers return positive ids), and a
count of reconciliation (`refresh`) runs. -/
structure TimerWorld where
  pending : List Nat
  nextId : Nat
  refreshRuns : Nat
deriving DecidableEq, Repr

/-- Host primitive `clearTimeout(id)`. -/
def jsClearTimeout (w : TimerWorld) (id : Nat) : TimerWorld :=
  { w with pending := w.pending.erase id }

/-- Host primitive `setTimeout`: arms a timeout and returns its fresh id. -/
def jsSetTimeout (w : TimerWorld) : Nat × TimerWorld :=
  (w.nextId, { w with pending := w.pending ++ [w.nextId], nextId := w.nextId + 1 })

/-- Method `refresh()`: cancels a pending resize timer, re-applies slide widths and
the rail width (pure DOM style writes, not modelled), and in slide mode
reruns `slideTransition()`. -/
def refresh (g : Geometry) (s : SlideshowState) (w : TimerWorld) :
    (Option JsError × SlideshowState) × TimerWorld :=
  let w := if 0 < s.resizeId then jsClearTimeout w s.resizeId else w
  let s := if 0 < s.resizeId then { s with resizeId := 0 } else s
  if s.animation = some AnimationName.slide then (slideTransition g s, w)
  else ((none, s), w)

/-- The `"resize"` listener installed by `initialize`: cancel the pending
debounce timer if any, then arm a new 500 ms timeout that will run
`refresh`. -/
def onResizeSignal (s : SlideshowState) (w : TimerWorld) : SlideshowState × TimerWorld :=
  let w := if 0 < s.resizeId then jsClearTimeout w s.resizeId else w
  let idw := jsSetTimeout w
  ({ s with resizeId := idw.1 }, idw.2)

/-- The host firing a timeout: only an armed, uncancelled id runs its
callback (here always `refresh`, counted in `refreshRuns`). -/
def fireTimeout (g : Geometry) (id : Nat) (s : SlideshowState) (w : TimerWorld) :
    (Option JsError × SlideshowState) × TimerWorld :=
  if id ∈ w.pending then
    let w := { w with pending := w.pending.erase id, refreshRuns := w.refreshRuns + 1 }
    refresh g s w
  else ((none, s), w)

/-- Applies `N` consecutive resize signals with no timer firing in between. -/
def applySignals : Nat → SlideshowState → TimerWorld → SlideshowState × TimerWorld
  | 0, s, w => (s, w)
  | n + 1, s, w =>
      let sw := onResizeSignal s w
      applySignals n sw.1 sw.2

/-- An external navigation call. -/
inductive NavOp
  | next
  | prev
deriving DecidableEq, Repr

/-- Run a sequence of `nextSlide`/`previousSlide` calls, stopping at the
first exception. -/
def runNav (g : Geometry) : List NavOp → SlideshowState → Option JsError × SlideshowState
  | [], s => (none, s)
  | op :: ops, s =>
      match (match op with
             | NavOp.next => nextSlide g s
             | NavOp.prev => previousSlide g s) with
      | (some e, s') => (some e, s')
      | (none, s') => runNav g ops s'

/-- Modelled from the spec (§4.3 threshold rule), for comparison with the
`dragEnd` scan: scanning indices `0 .. N−2` in increasing order, the
committed index is the earliest one whose left edge is at or to the right
of the threshold; if none qualifies, the last index `N−1`. -/
def specResolveIndex (threshold : Int) (slideLeft : Nat → Int) (count : Nat) : Nat :=
  match (List.range (count - 1)).find? (fun i => decide (threshold ≤ slideLeft i)) with
  | some i => i
  | none => count - 1

/-- A geometry for concrete runs: slides of width 100 laid out from the
viewport's left edge. -/
def gAligned : Geometry :=
  { viewportLeft := 0, railLeft := 0, slideLeft := fun i => (i : Int) * 100 }

/-- A geometry where the rail has been dragged 120 px to the left: slide 0's
left edge is negative, slide 1's is at 80 ≥ 0. -/
def gDragged : Geometry :=
  { viewportLeft := 0, railLeft := -120, slideLeft := fun i => (i : Int) * 100 - 20 }

/-- A widget state with `n` slides and bullets, active index `i`, slide
animation, dragging enabled, no session open. -/
def mkState (n : Nat) (i : Int) : SlideshowState :=
  { nSlides := n, nBullets := n, animation := some AnimationName.slide,
    skipNextAutoplay := false, activeIndex := i, dragStartingPoint := 0,
    currentOffset := 0, autoplayId := 0, resizeId := 0, touchId := 0,
    beingDragged := false, draggable := true, railStyleLeft := none,
    railTransitionOverride := false, slideMarks := [], bulletMarks := [] }

/-- State `mkState` mid-drag: a mouse-started DragSession is open (`beingDragged`),
no touch is tracked (`touchId = 0`). -/
def mkDragState (n : Nat) (i : Int) : SlideshowState :=
  { mkState n i with beingDragged := true, railTransitionOverride := true, dragStartingPoint := 5 }

/-- The pure step of the `dragEnd` resolution loop. -/
def scanStep (t : Int) (f : Nat → Int) (a : Int) (i : Nat) : Int :=
  if (i : Int) < a then (if t ≤ f i then (i : Int) else a) else a

/-- An in-range index measures the slide's left edge without error. -/
theorem computeSlideLeft_ok (g : Geometry) (count : Nat) (index : Int)
    (h0 : 0 ≤ index) (h1 : index < (count : Int)) :
    computeSlideLeft g count index = Except.ok (g.slideLeft index.toNat) := by
  simp [computeSlideLeft, slidesGet, h0, h1]

theorem computeSlideLeft_ok_nat (g : Geometry) (count i : Nat) (h : i < count) :
    computeSlideLeft g count (i : Int) = Except.ok (g.slideLeft i) := by
  have := computeSlideLeft_ok g count (i : Int) (by positivity) (by exact_mod_cast h)
  simpa using this

/-- Fields `slideTransition` never touches, in every branch. -/
theorem slideTransition_preserves (g : Geometry) (s : SlideshowState) :
    (slideTransition g s).2.activeIndex = s.activeIndex ∧
    (slideTransition g s).2.nSlides = s.nSlides ∧
    (slideTransition g s).2.nBullets = s.nBullets ∧
    (slideTransition g s).2.animation = s.animation ∧
    (slideTransition g s).2.skipNextAutoplay = true ∧
    (slideTransition g s).2.draggable = s.draggable ∧
    (slideTransition g s).2.beingDragged = s.beingDragged ∧
    (slideTransition g s).2.touchId = s.touchId ∧
    (slideTransition g s).2.autoplayId = s.autoplayId ∧
    (slideTransition g s).2.resizeId = s.resizeId ∧
    (slideTransition g s).2.railTransitionOverride = s.railTransitionOverride ∧
    (slideTransition g s).2.dragStartingPoint = s.dragStartingPoint := by
  unfold slideTransition updateActive
  dsimp only
  split
  · split <;> simp_all
  · simp_all

/-- In slide mode with an in-range index, or out of slide mode,
`slideTransition` does not throw. -/
theorem slideTransition_fst (g : Geometry) (s : SlideshowState)
    (h : s.animation = some AnimationName.slide →
         0 ≤ s.activeIndex ∧ s.activeIndex < (s.nSlides : Int)) :
    (slideTransition g s).1 = none := by
  unfold slideTransition updateActive
  dsimp only
  split
  · rename_i hs
    rcases h hs with ⟨h0, h1⟩
    rw [computeSlideLeft_ok g s.nSlides s.activeIndex h0 h1]
  · rfl


/-- The index written by `nextSlide` before the commit step. -/
theorem nextSlide_activeIndex (g : Geometry) (s : SlideshowState) :
    (nextSlide g s).2.activeIndex =
      (if (s.nSlides : Int) ≤ s.activeIndex + 1 then 0 else s.activeIndex + 1) := by
  unfold nextSlide
  exact (slideTransition_preserves g _).1

theorem previousSlide_activeIndex (g : Geometry) (s : SlideshowState) :
    (previousSlide g s).2.activeIndex =
      (if 0 < s.activeIndex then s.activeIndex - 1 else (s.nSlides : Int) - 1) := by
  unfold previousSlide
  exact (slideTransition_preserves g _).1

/-- With at least one slide and an in-range index, `nextSlide` cannot throw
and keeps the index in range. -/
theorem nextSlide_ok (g : Geometry) (s : SlideshowState) (hn : 1 ≤ s.nSlides)
    (h0 : 0 ≤ s.activeIndex) (h1 : s.activeIndex < (s.nSlides : Int)) :
    (nextSlide g s).1 = none ∧
    0 ≤ (nextSlide g s).2.activeIndex ∧
    (nextSlide g s).2.activeIndex < ((nextSlide g s).2.nSlides : Int) ∧
    (nextSlide g s).2.nSlides = s.nSlides := by
  have hns : (1 : Int) ≤ (s.nSlides : Int) := by exact_mod_cast hn
  have hrange : 0 ≤ (if (s.nSlides : Int) ≤ s.activeIndex + 1 then 0 else s.activeIndex + 1) ∧
      (if (s.nSlides : Int) ≤ s.activeIndex + 1 then 0 else s.activeIndex + 1) < (s.nSlides : Int) := by
    split <;> omega
  refine ⟨?_, ?_, ?_, ?_⟩
  · exact slideTransition_fst g _ (fun _ => hrange)
  · rw [nextSlide_activeIndex]; exact hrange.1
  · rw [nextSlide_activeIndex]
    unfold nextSlide
    rw [(slideTransition_preserves g _).2.1]
    exact hrange.2
  · unfold nextSlide; exact (slideTransition_preserves g _).2.1

theorem previousSlide_ok (g : Geometry) (s : SlideshowState) (hn : 1 ≤ s.nSlides)
    (h0 : 0 ≤ s.activeIndex) (h1 : s.activeIndex < (s.nSlides : Int)) :
    (previousSlide g s).1 = none ∧
    0 ≤ (previousSlide g s).2.activeIndex ∧
    (previousSlide g s).2.activeIndex < ((previousSlide g s).2.nSlides : Int) ∧
    (previousSlide g s).2.nSlides = s.nSlides := by
  have hns : (1 : Int) ≤ (s.nSlides : Int) := by exact_mod_cast hn
  have hrange : 0 ≤ (if 0 < s.activeIndex then s.activeIndex - 1 else (s.nSlides : Int) - 1) ∧
      (if 0 < s.activeIndex then s.activeIndex - 1 else (s.nSlides : Int) - 1) < (s.nSlides : Int) := by
    split <;> omega
  refine ⟨?_, ?_, ?_, ?_⟩
  · exact slideTransition_fst g _ (fun _ => hrange)
  · rw [previousSlide_activeIndex]; exact hrange.1
  · rw [previousSlide_activeIndex]
    unfold previousSlide
    rw [(slideTransition_preserves g _).2.1]
    exact hrange.2
  · unfold previousSlide; exact (slideTransition_preserves g _).2.1

/-- Unfolding equation for `runNav` on a cons cell. -/
theorem runNav_cons (g : Geometry) (op : NavOp) (ops : List NavOp) (s : SlideshowState) :
    runNav g (op :: ops) s =
      match (match op with
             | NavOp.next => nextSlide g s
             | NavOp.prev => previousSlide g s) with
      | (some e, s') => (some e, s')
      | (none, s') => runNav g ops s' := by
  rfl

/-- The range invariant survives any sequence of navigation calls. -/
theorem runNav_inv (g : Geometry) (ops : List NavOp) :
    ∀ s : SlideshowState, 1 ≤ s.nSlides → 0 ≤ s.activeIndex →
      s.activeIndex < (s.nSlides : Int) →
      (runNav g ops s).1 = none ∧
      0 ≤ (runNav g ops s).2.activeIndex ∧
      (runNav g ops s).2.activeIndex < ((runNav g ops s).2.nSlides : Int) ∧
      (runNav g ops s).2.nSlides = s.nSlides := by
  induction ops with
  | nil => intro s hn h0 h1; exact ⟨rfl, h0, h1, rfl⟩
  | cons op ops ih =>
      intro s hn h0 h1
      rw [runNav_cons]
      cases op with
      | next =>
          obtain ⟨hfst, h0', h1', hs'⟩ := nextSlide_ok g s hn h0 h1
          rcases hh : nextSlide g s with ⟨e, s'⟩
          rw [hh] at hfst h0' h1' hs'
          dsimp only at hfst h0' h1' hs' ⊢
          subst hfst
          obtain ⟨a, b, c, d⟩ := ih s' (by omega) h0' (by rw [hs'] at h1'; rw [hs']; exact h1')
          exact ⟨a, b, c, by rw [d, hs']⟩
      | prev =>
          obtain ⟨hfst, h0', h1', hs'⟩ := previousSlide_ok g s hn h0 h1
          rcases hh : previousSlide g s with ⟨e, s'⟩
          rw [hh] at hfst h0' h1' hs'
          dsimp only at hfst h0' h1' hs' ⊢
          subst hfst
          obtain ⟨a, b, c, d⟩ := ih s' (by omega) h0' (by rw [hs'] at h1'; rw [hs']; exact h1')
          exact ⟨a, b, c, by rw [d, hs']⟩


/-- Over indices below the slide count, the scan loop never throws and
computes the pure fold of `scanStep`. -/
theorem scan_foldlM_eq_foldl (g : Geometry) (count : Nat) :
    ∀ (l : List Nat) (a : Int), (∀ i ∈ l, i < count) →
      (l.foldlM (fun (newIndex : Int) (index : Nat) =>
        if (index : Int) < newIndex then
          match computeSlideLeft g count (index : Int) with
          | Except.error e => Except.error e
          | Except.ok left =>
              Except.ok (if g.viewportLeft ≤ left then (index : Int) else newIndex)
        else Except.ok newIndex) a : Except JsError Int)
      = Except.ok (l.foldl (scanStep g.viewportLeft g.slideLeft) a) := by
  intro l
  induction l with
  | nil => intro a _; rfl
  | cons x xs ih =>
      intro a h
      have hx : x < count := h x (List.mem_cons_self x xs)
      rw [List.foldlM_cons, List.foldl_cons]
      have hbody :
          (if (x : Int) < a then
            match computeSlideLeft g count (x : Int) with
            | Except.error e => Except.error e
            | Except.ok left =>
                Except.ok (if g.viewportLeft ≤ left then (x : Int) else a)
          else Except.ok a) = Except.ok (scanStep g.viewportLeft g.slideLeft a x) := by
        rw [computeSlideLeft_ok_nat g count x hx]
        unfold scanStep
        split <;> rfl
      rw [hbody]
      show (xs.foldlM _ _ : Except JsError Int) = _
      exact ih _ (fun i hi => h i (List.mem_cons_of_mem x hi))

/-- The pure fold over `range m` returns the earliest qualifying index, or
the initial accumulator when none qualifies. -/
theorem foldl_scanStep_range (t : Int) (f : Nat → Int) :
    ∀ (m : Nat) (a : Int), (m : Int) ≤ a →
      (List.range m).foldl (scanStep t f) a =
        (match (List.range m).find? (fun i => decide (t ≤ f i)) with
         | some i => (i : Int)
         | none => a) := by
  intro m
  induction m with
  | zero => intro a _; rfl
  | succ m ih =>
      intro a ha
      have ham : (m : Int) ≤ a := by push_cast at ha ⊢; omega
      rw [List.range_succ, List.foldl_append, List.find?_append, ih a ham]
      cases hf : (List.range m).find? (fun i => decide (t ≤ f i)) with
      | some i =>
          have hi : i < m := List.mem_range.mp (List.mem_of_find?_eq_some hf)
          have hni : ¬ ((m : Int) < (i : Int)) := by exact_mod_cast Nat.not_lt.mpr (Nat.le_of_lt hi)
          simp [scanStep, hni, Option.or]
      | none =>
          have hma : (m : Int) < a := by push_cast at ha; omega
          by_cases hpm : t ≤ f m <;>
            simp [scanStep, hma, hpm, List.find?, Option.or]

/-- The scan loop of `dragEnd` implements the spec's threshold rule. -/
theorem dragEndScan_spec (g : Geometry) (count : Nat) (hn : 1 ≤ count) :
    dragEndScan g count =
      Except.ok ((specResolveIndex g.viewportLeft g.slideLeft count : Nat) : Int) := by
  unfold dragEndScan
  rw [scan_foldlM_eq_foldl g count (List.range (count - 1)) ((count : Int) - 1)
        (fun i hi => by have := List.mem_range.mp hi; omega)]
  rw [foldl_scanStep_range g.viewportLeft g.slideLeft (count - 1) ((count : Int) - 1)
        (by rw [Nat.cast_sub hn]; norm_num)]
  unfold specResolveIndex
  cases hf : (List.range (count - 1)).find? (fun i => decide (g.viewportLeft ≤ g.slideLeft i)) with
  | some i => rfl
  | none => rw [Nat.cast_sub hn]; norm_num

/-- The resolved index is always in range. -/
theorem specResolveIndex_lt (t : Int) (f : Nat → Int) (count : Nat) (hn : 1 ≤ count) :
    specResolveIndex t f count < count := by
  unfold specResolveIndex
  cases hf : (List.range (count - 1)).find? (fun i => decide (t ≤ f i)) with
  | some i =>
      dsimp only
      have := List.mem_range.mp (List.mem_of_find?_eq_some hf)
      omega
  | none => dsimp only; omega


/-- Full characterization of a drag end on an open session. -/
theorem dragEnd_resolves (g : Geometry) (s : SlideshowState)
    (hd : s.beingDragged = true) (hn : 1 ≤ s.nSlides) :
    (dragEnd g s).1 = none ∧
    (dragEnd g s).2.activeIndex =
      ((specResolveIndex g.viewportLeft g.slideLeft s.nSlides : Nat) : Int) ∧
    (dragEnd g s).2.beingDragged = false ∧
    (dragEnd g s).2.touchId = 0 ∧
    (dragEnd g s).2.railTransitionOverride = false ∧
    (dragEnd g s).2.skipNextAutoplay = true ∧
    (dragEnd g s).2.nSlides = s.nSlides ∧
    (dragEnd g s).2.draggable = s.draggable ∧
    (dragEnd g s).2.animation = s.animation := by
  have hix := specResolveIndex_lt g.viewportLeft g.slideLeft s.nSlides hn
  unfold dragEnd
  rw [hd]
  simp only [Bool.true_eq_false, if_false]
  rw [dragEndScan_spec g s.nSlides hn]
  dsimp only
  set s2 : SlideshowState :=
    { s with
      railTransitionOverride := false
      beingDragged := false
      touchId := 0
      activeIndex := ((specResolveIndex g.viewportLeft g.slideLeft s.nSlides : Nat) : Int) } with hs2
  have hrange : s2.animation = some AnimationName.slide →
      0 ≤ s2.activeIndex ∧ s2.activeIndex < (s2.nSlides : Int) := by
    intro _
    rw [hs2]
    dsimp only
    exact ⟨by positivity, by exact_mod_cast hix⟩
  have hp := slideTransition_preserves g s2
  exact ⟨slideTransition_fst g s2 hrange, hp.1, hp.2.2.2.2.2.2.1, hp.2.2.2.2.2.2.2.1,
    hp.2.2.2.2.2.2.2.2.2.2.1, hp.2.2.2.2.1, hp.2.1, hp.2.2.2.2.2.1, hp.2.2.2.1⟩


/-- On a range with at least two elements, a predicate false at 0 and true
at 1 is first satisfied at 1. -/
theorem find?_range_second (p : Nat → Bool) :
    ∀ m : Nat, 2 ≤ m → p 0 = false → p 1 = true →
      (List.range m).find? p = some 1 := by
  intro m
  induction m with
  | zero => intro h; omega
  | succ m ih =>
      intro h2 h0 h1
      rw [List.range_succ, List.find?_append]
      by_cases hm : 2 ≤ m
      · rw [ih hm h0 h1]; rfl
      · have hm1 : m = 1 := by omega
        subst hm1
        simp [List.find?, h0, h1, Option.or]

/-- The spec rule's concrete consequence: slide 0 scrolled past, slide 1
still at or right of the threshold, resolves to index 1. -/
theorem specResolveIndex_slide1 (t : Int) (f : Nat → Int) (count : Nat)
    (h2 : 2 ≤ count) (h0 : f 0 < t) (h1 : t ≤ f 1) :
    specResolveIndex t f count = 1 := by
  have hd0 : decide (t ≤ f 0) = false := decide_eq_false (not_le.mpr h0)
  have hd1 : decide (t ≤ f 1) = true := decide_eq_true h1
  unfold specResolveIndex
  by_cases hc : 3 ≤ count
  · rw [find?_range_second (fun i => decide (t ≤ f i)) (count - 1) (by omega) hd0 hd1]
  · have : count = 2 := by omega
    subst this
    simp [List.find?, hd0]

/-- C1: for every drag end with N ≥ 1 slides, the committed index is the
earliest index in 0 .. N−2 whose measured left edge is at or to the right
of the viewport's left edge, or N−1 when none qualifies (the spec's
threshold rule, `specResolveIndex`); in particular, once slide 0's left
edge is negative while slide 1's is at or right of the viewport's left
edge, the resolved index is 1. -/
theorem dragEnd_threshold_rule (g : Geometry) (s : SlideshowState)
    (hd : s.beingDragged = true) (hn : 1 ≤ s.nSlides) :
    (dragEnd g s).1 = none ∧
    (dragEnd g s).2.activeIndex =
      ((specResolveIndex g.viewportLeft g.slideLeft s.nSlides : Nat) : Int) ∧
    (2 ≤ s.nSlides → g.slideLeft 0 < g.viewportLeft →
      g.viewportLeft ≤ g.slideLeft 1 →
      (dragEnd g s).2.activeIndex = 1) := by
  obtain ⟨ha, hb, -⟩ := dragEnd_resolves g s hd hn
  refine ⟨ha, hb, fun h2 hl0 hl1 => ?_⟩
  rw [hb, specResolveIndex_slide1 g.viewportLeft g.slideLeft s.nSlides h2 hl0 hl1]
  rfl

/-- Witness for C1: ending a drag on 5 slides pulled 120 px left (slide 0's
left edge −20, slide 1's 80) commits index 1 without error. -/
theorem dragEnd_threshold_rule_witness :
    (dragEnd gDragged (mkDragState 5 0)).1 = none ∧
    (dragEnd gDragged (mkDragState 5 0)).2.activeIndex = 1 := by
  obtain ⟨ha, -, hc⟩ :=
    dragEnd_threshold_rule gDragged (mkDragState 5 0) (by rfl) (by decide)
  exact ⟨ha, hc (by decide) (by decide) (by decide)⟩

/-- C2: with N ≥ 1 slides and an in-range index, any sequence of
`nextSlide`/`previousSlide` calls throws nothing and keeps the index in
[0, N−1], and the single-step wrap equations hold: `next` at N−1 gives 0
(else +1), `previous` at 0 gives N−1 (else −1). -/
theorem nav_wraps_and_stays_in_range (g : Geometry) (s : SlideshowState)
    (hn : 1 ≤ s.nSlides) (h0 : 0 ≤ s.activeIndex)
    (h1 : s.activeIndex < (s.nSlides : Int)) :
    (∀ ops : List NavOp,
       (runNav g ops s).1 = none ∧
       0 ≤ (runNav g ops s).2.activeIndex ∧
       (runNav g ops s).2.activeIndex < (s.nSlides : Int)) ∧
    ((nextSlide g s).2.activeIndex =
       if s.activeIndex = (s.nSlides : Int) - 1 then 0 else s.activeIndex + 1) ∧
    ((previousSlide g s).2.activeIndex =
       if s.activeIndex = 0 then (s.nSlides : Int) - 1 else s.activeIndex - 1) := by
  refine ⟨fun ops => ?_, ?_, ?_⟩
  · obtain ⟨ha, hb, hc, hd⟩ := runNav_inv g ops s hn h0 h1
    rw [hd] at hc
    exact ⟨ha, hb, hc⟩
  · rw [nextSlide_activeIndex]; split_ifs <;> omega
  · rw [previousSlide_activeIndex]; split_ifs <;> omega

/-- Witness for C2: on 3 slides starting at 2, a concrete call sequence
stays in range, `next` wraps 2 → 0 and `previous` wraps 0 → 2. -/
theorem nav_wraps_and_stays_in_range_witness :
    ((runNav gAligned [NavOp.next, NavOp.prev, NavOp.prev] (mkState 3 2)).1 = none ∧
     0 ≤ (runNav gAligned [NavOp.next, NavOp.prev, NavOp.prev] (mkState 3 2)).2.activeIndex ∧
     (runNav gAligned [NavOp.next, NavOp.prev, NavOp.prev] (mkState 3 2)).2.activeIndex < 3) ∧
    (nextSlide gAligned (mkState 3 2)).2.activeIndex = 0 ∧
    (previousSlide gAligned (mkState 3 0)).2.activeIndex = 2 := by
  obtain ⟨ha, hb, -⟩ :=
    nav_wraps_and_stays_in_range gAligned (mkState 3 2) (by decide) (by decide) (by decide)
  obtain ⟨-, -, hc⟩ :=
    nav_wraps_and_stays_in_range gAligned (mkState 3 0) (by decide) (by decide) (by decide)
  exact ⟨ha [NavOp.next, NavOp.prev, NavOp.prev], by rw [hb]; rfl, by rw [hc]; rfl⟩

/-- C3: `changeSlide(i)` with i outside [0, N−1] throws the RangeError
`"Out of bound index"` and returns with every field unchanged; with i in
range it throws nothing and sets the active index to i. -/
theorem changeSlide_range_check (g : Geometry) (s : SlideshowState) (index : Int) :
    ((index < 0 ∨ (s.nSlides : Int) ≤ index) →
       changeSlide g s index = (some (JsError.thrown ("Out of bound index")), s)) ∧
    (0 ≤ index → index < (s.nSlides : Int) →
       (changeSlide g s index).1 = none ∧
       (changeSlide g s index).2.activeIndex = index) := by
  constructor
  · intro h
    unfold changeSlide
    rw [if_pos h]
  · intro h0 h1
    unfold changeSlide
    rw [if_neg (by omega)]
    exact ⟨slideTransition_fst g _ (fun _ => ⟨h0, h1⟩),
      (slideTransition_preserves g _).1⟩

/-- Witness for C3: on 2 slides, `changeSlide 9` throws and leaves the
state whole; `changeSlide 1` succeeds and activates index 1. -/
theorem changeSlide_range_check_witness :
    changeSlide gAligned (mkState 2 0) 9 =
      (some (JsError.thrown ("Out of bound index")), mkState 2 0) ∧
    (changeSlide gAligned (mkState 2 0) 1).1 = none ∧
    (changeSlide gAligned (mkState 2 0) 1).2.activeIndex = 1 := by
  refine ⟨(changeSlide_range_check gAligned (mkState 2 0) 9).1 (by decide), ?_, ?_⟩
  · exact ((changeSlide_range_check gAligned (mkState 2 0) 1).2 (by decide) (by decide)).1
  · exact ((changeSlide_range_check gAligned (mkState 2 0) 1).2 (by decide) (by decide)).2

/-- C4 (documents the bug): `computeSlideLeft` returns the measured left
edge for an in-range index, but for an out-of-range index the `=== null`
guard cannot fire — `this.slides[index]` is `undefined`, not `null` — so
the call fails with a TypeError and the intended IndexError
(`"No slide matching index"`) is unreachable for every input. -/
theorem computeSlideLeft_dead_guard (g : Geometry) (count : Nat) (index : Int) :
    (0 ≤ index → index < (count : Int) →
       computeSlideLeft g count index = Except.ok (g.slideLeft index.toNat)) ∧
    (¬ (0 ≤ index ∧ index < (count : Int)) →
       computeSlideLeft g count index = Except.error JsError.typeError) ∧
    computeSlideLeft g count index ≠
      Except.error (JsError.thrown ("No slide matching index")) := by
  refine ⟨fun h0 h1 => computeSlideLeft_ok g count index h0 h1, fun h => ?_, ?_⟩
  · unfold computeSlideLeft slidesGet
    rw [if_neg h]
  · by_cases h : 0 ≤ index ∧ index < (count : Int)
    · rw [computeSlideLeft_ok g count index h.1 h.2]
      simp
    · unfold computeSlideLeft slidesGet
      rw [if_neg h]
      simp

/-- Witness for C4: with a single slide, querying index 1 yields the
TypeError, not the IndexError. -/
theorem computeSlideLeft_dead_guard_witness :
    computeSlideLeft gAligned 1 1 = Except.error JsError.typeError ∧
    computeSlideLeft gAligned 1 1 ≠
      Except.error (JsError.thrown ("No slide matching index")) := by
  refine ⟨(computeSlideLeft_dead_guard gAligned 1 1).2.1 (by decide),
    (computeSlideLeft_dead_guard gAligned 1 1).2.2⟩

/-- C5: every `slideTransition` sets the autoplay-suppression flag and
rewrites the active marking of slides and bullets from the active index;
in slide mode (with an in-range index) it additionally sets
`currentOffset = railLeft − slideLeft(activeIndex)`, both taken from the
geometry measured before the rail moves, and writes it to the rail; in any
other mode it throws nothing, leaves `currentOffset` and the rail's left
style untouched, and consults no geometry at all (the result does not
depend on the `Geometry` argument). -/
theorem slideTransition_commit (g gAlt : Geometry) (s : SlideshowState) :
    (slideTransition g s).2.skipNextAutoplay = true ∧
    (slideTransition g s).2.slideMarks =
      (List.range s.nSlides).map (fun i => s.activeIndex == (i : Int)) ∧
    (slideTransition g s).2.bulletMarks =
      (List.range s.nBullets).map (fun i => s.activeIndex == (i : Int)) ∧
    (s.animation = some AnimationName.slide → 0 ≤ s.activeIndex →
       s.activeIndex < (s.nSlides : Int) →
       (slideTransition g s).1 = none ∧
       (slideTransition g s).2.currentOffset =
         g.railLeft - g.slideLeft s.activeIndex.toNat ∧
       (slideTransition g s).2.railStyleLeft =
         some (g.railLeft - g.slideLeft s.activeIndex.toNat)) ∧
    (s.animation ≠ some AnimationName.slide →
       (slideTransition g s).1 = none ∧
       (slideTransition g s).2.currentOffset = s.currentOffset ∧
       (slideTransition g s).2.railStyleLeft = s.railStyleLeft ∧
       slideTransition gAlt s = slideTransition g s) := by
  refine ⟨?_, ?_, ?_, fun hm h0 h1 => ?_, fun hm => ?_⟩
  · exact (slideTransition_preserves g s).2.2.2.2.1
  · unfold slideTransition updateActive
    dsimp only
    split
    · split <;> rfl
    · rfl
  · unfold slideTransition updateActive
    dsimp only
    split
    · split <;> rfl
    · rfl
  · unfold slideTransition updateActive
    dsimp only
    rw [if_pos hm, computeSlideLeft_ok g s.nSlides s.activeIndex h0 h1]
    exact ⟨rfl, rfl, rfl⟩
  · unfold slideTransition updateActive
    dsimp only
    rw [if_neg hm, if_neg hm]
    exact ⟨rfl, rfl, rfl, rfl⟩


/-- Witness for C5: a concrete slide-mode commit sets the flag and the
offset; a fade-mode commit leaves the rail style empty. -/
theorem slideTransition_commit_witness :
    (slideTransition gAligned (mkState 3 1)).2.skipNextAutoplay = true ∧
    (slideTransition gAligned (mkState 3 1)).1 = none ∧
    (slideTransition gAligned (mkState 3 1)).2.currentOffset = -100 ∧
    (slideTransition gDragged
      { mkState 2 0 with animation := some AnimationName.fade }).2.railStyleLeft = none := by
  obtain ⟨ha, -, -, hd, -⟩ := slideTransition_commit gAligned gDragged (mkState 3 1)
  obtain ⟨hf, hm, -⟩ := hd (by rfl) (by decide) (by decide)
  obtain ⟨-, -, -, -, he⟩ :=
    slideTransition_commit gDragged gAligned { mkState 2 0 with animation := some AnimationName.fade }
  obtain ⟨-, -, hrl, -⟩ := he (by decide)
  exact ⟨ha, hf, by rw [hm]; rfl, by rw [hrl]; rfl⟩

/-- C6: `startAutoplay` rejects the delays 0 and −5 with the
ValidationError and arms nothing (the state is returned untouched); a tick
finding the suppression flag set clears it and does not advance; a tick
finding it clear advances by `nextSlide`'s wrap rule and leaves the flag
clear; and after `startAutoplay` with a valid delay followed by one manual
`nextSlide`, the first tick is suppressed and the second advances. -/
theorem autoplay_suppression (g g2 : Geometry) (s : SlideshowState)
    (freshId : Nat)
    (hn : 1 ≤ s.nSlides) (h0 : 0 ≤ s.activeIndex)
    (h1 : s.activeIndex < (s.nSlides : Int)) :
    startAutoplay s 0 freshId =
      (some (JsError.thrown ("Autoplay delay must be a safe positive integer")), s) ∧
    startAutoplay s (-5) freshId =
      (some (JsError.thrown ("Autoplay delay must be a safe positive integer")), s) ∧
    (∀ s' : SlideshowState, s'.skipNextAutoplay = true →
       autoplayTick g s' = (none, { s' with skipNextAutoplay := false })) ∧
    (∀ s' : SlideshowState, s'.skipNextAutoplay = false → 1 ≤ s'.nSlides →
       0 ≤ s'.activeIndex → s'.activeIndex < (s'.nSlides : Int) →
       (autoplayTick g s').1 = none ∧
       (autoplayTick g s').2.activeIndex =
         (if (s'.nSlides : Int) ≤ s'.activeIndex + 1 then 0 else s'.activeIndex + 1) ∧
       (autoplayTick g s').2.skipNextAutoplay = false) ∧
    ((startAutoplay s 1000 freshId).1 = none ∧
     (startAutoplay s 1000 freshId).2.autoplayId = freshId ∧
     (startAutoplay s 1000 freshId).2.skipNextAutoplay = false ∧
     (nextSlide g (startAutoplay s 1000 freshId).2).2.skipNextAutoplay = true ∧
     (autoplayTick g (nextSlide g (startAutoplay s 1000 freshId).2).2).2.activeIndex =
       (nextSlide g (startAutoplay s 1000 freshId).2).2.activeIndex ∧
     (autoplayTick g2
        (autoplayTick g (nextSlide g (startAutoplay s 1000 freshId).2).2).2).2.activeIndex =
       (if ((nextSlide g (startAutoplay s 1000 freshId).2).2.nSlides : Int) ≤
            (nextSlide g (startAutoplay s 1000 freshId).2).2.activeIndex + 1
        then 0
        else (nextSlide g (startAutoplay s 1000 freshId).2).2.activeIndex + 1)) := by
  have hsup : ∀ s' : SlideshowState, s'.skipNextAutoplay = true →
      autoplayTick g s' = (none, { s' with skipNextAutoplay := false }) := by
    intro s' h
    unfold autoplayTick
    rw [h]
    rfl
  have hadv : ∀ (gx : Geometry) (s' : SlideshowState), s'.skipNextAutoplay = false →
      1 ≤ s'.nSlides → 0 ≤ s'.activeIndex → s'.activeIndex < (s'.nSlides : Int) →
      (autoplayTick gx s').1 = none ∧
      (autoplayTick gx s').2.activeIndex =
        (if (s'.nSlides : Int) ≤ s'.activeIndex + 1 then 0 else s'.activeIndex + 1) ∧
      (autoplayTick gx s').2.skipNextAutoplay = false := by
    intro gx s' hflag hn' h0' h1'
    obtain ⟨hfst, -, -, -⟩ := nextSlide_ok gx s' hn' h0' h1'
    have hidx := nextSlide_activeIndex gx s'
    unfold autoplayTick
    rw [hflag]
    rcases hh : nextSlide gx s' with ⟨e, sx⟩
    rw [hh] at hfst hidx
    dsimp only at hfst hidx ⊢
    subst hfst
    exact ⟨rfl, hidx, rfl⟩
  have hstart : startAutoplay s 1000 freshId =
      (none, { stopAutoplay s with skipNextAutoplay := false, autoplayId := freshId }) := by
    unfold startAutoplay
    rw [if_neg (by norm_num [jsIsSafeInteger])]
  refine ⟨?_, ?_, hsup, fun s' => hadv g s', ?_⟩
  · unfold startAutoplay
    rw [if_pos (by norm_num [jsIsSafeInteger])]
  · unfold startAutoplay
    rw [if_pos (by norm_num [jsIsSafeInteger])]
  · rw [hstart]
    dsimp only
    have hstop : ∀ t : SlideshowState,
        (stopAutoplay t).activeIndex = t.activeIndex ∧
        (stopAutoplay t).nSlides = t.nSlides := by
      intro t
      unfold stopAutoplay
      split <;> exact ⟨rfl, rfl⟩
    set s0 : SlideshowState :=
      { stopAutoplay s with skipNextAutoplay := false, autoplayId := freshId } with hs0
    have hs0n : s0.nSlides = s.nSlides := (hstop s).2
    have hs0i : s0.activeIndex = s.activeIndex := (hstop s).1
    obtain ⟨hn1, h01, h11, hsl1⟩ := nextSlide_ok g s0 (by omega) (by omega) (by rw [hs0i, hs0n]; exact h1)
    have hnsk : (nextSlide g s0).2.skipNextAutoplay = true := by
      unfold nextSlide
      exact (slideTransition_preserves g _).2.2.2.2.1
    set s1 : SlideshowState := (nextSlide g s0).2 with hs1
    have htick1 := hsup s1 hnsk
    have hs2flag : ({ s1 with skipNextAutoplay := false } : SlideshowState).skipNextAutoplay = false := rfl
    obtain ⟨-, htick2idx, -⟩ :=
      hadv g2 { s1 with skipNextAutoplay := false } hs2flag (by dsimp only; omega) (by dsimp only; omega) (by dsimp only; omega)
    refine ⟨rfl, rfl, rfl, hnsk, ?_, ?_⟩
    · rw [htick1]
    · rw [htick1]
      dsimp only
      rw [htick2idx]


/-- Witness for C6: on 3 slides at index 0, `startAutoplay(0)` throws and
changes nothing; after a valid start and one manual advance (to index 1),
the first tick keeps index 1 and the second tick advances to 2. -/
theorem autoplay_suppression_witness :
    startAutoplay (mkState 3 0) 0 42 =
      (some (JsError.thrown ("Autoplay delay must be a safe positive integer")), mkState 3 0) ∧
    startAutoplay (mkState 3 0) (-5) 42 =
      (some (JsError.thrown ("Autoplay delay must be a safe positive integer")), mkState 3 0) ∧
    (autoplayTick gAligned
      (nextSlide gAligned (startAutoplay (mkState 3 0) 1000 42).2).2).2.activeIndex = 1 ∧
    (autoplayTick gAligned
      (autoplayTick gAligned
        (nextSlide gAligned (startAutoplay (mkState 3 0) 1000 42).2).2).2).2.activeIndex = 2 := by
  obtain ⟨hz, hneg, -, -, -, -, -, -, he5, he6⟩ :=
    autoplay_suppression gAligned gAligned (mkState 3 0) 42 (by decide) (by decide) (by decide)
  refine ⟨hz, hneg, ?_, ?_⟩
  · rw [he5]; rfl
  · rw [he6]; rfl

/-- C7 as stated is false: while a mouse-started DragSession is active
(`beingDragged`, `touchId = 0`), an arriving touch-start is not fully
ignored — it overwrites the tracked touch identity (0 → 7 here) even
though the start request itself is dropped. -/
theorem second_drag_start_counterexample :
    (mkDragState 2 0).beingDragged = true ∧
    (mkDragState 2 0).touchId = 0 ∧
    (onTouchStart (mkDragState 2 0) [{ identifier := 7, clientX := 99 }]).2.touchId = 7 ∧
    ¬ ((onTouchStart (mkDragState 2 0) [{ identifier := 7, clientX := 99 }]).2.touchId =
        (mkDragState 2 0).touchId) := by
  exact ⟨rfl, rfl, rfl, by decide⟩

/-- C7 amended: while a DragSession is active (dragging enabled), no start
request opens a second session — a mouse-down leaves the state entirely
unchanged, and a touch-start leaves the session handle and the recorded
start coordinate unchanged; a touch-start is fully ignored when a touch is
already tracked (`touchId ≠ 0`), but when the active session tracks no
touch (`touchId = 0`, a mouse-started drag) it records the first changed
touch's identifier as the tracked identity before its start request is
dropped. -/
theorem second_drag_start_amended (s : SlideshowState) (clientX : Int)
    (touches : List TouchPoint)
    (hdr : s.draggable = true) (hd : s.beingDragged = true) :
    onMouseDown s clientX = (none, s) ∧
    (onTouchStart s touches).2.beingDragged = true ∧
    (onTouchStart s touches).2.dragStartingPoint = s.dragStartingPoint ∧
    (s.touchId ≠ 0 → onTouchStart s touches = (none, s)) ∧
    (∀ t ts, touches = t :: ts → s.touchId = 0 →
       (onTouchStart s touches).2 = { s with touchId := t.identifier }) := by
  have hms : onMouseDown s clientX = (none, s) := by
    unfold onMouseDown dragStart
    rw [hdr, hd]
    rfl
  refine ⟨hms, ?_, ?_, fun hti => ?_, fun t ts hts hti => ?_⟩
  · unfold onTouchStart dragStart
    by_cases hti : s.touchId ≠ 0
    · simp [hdr, hti, hd]
    · cases touches with
      | nil => simp [hdr, hti, hd]
      | cons t ts => simp [hdr, hti, hd]
  · unfold onTouchStart dragStart
    by_cases hti : s.touchId ≠ 0
    · simp [hdr, hti, hd]
    · cases touches with
      | nil => simp [hdr, hti, hd]
      | cons t ts => simp [hdr, hti, hd]
  · unfold onTouchStart
    simp [hdr, hti]
  · subst hts
    unfold onTouchStart dragStart
    simp [hdr, hti, hd]

/-- Witness for C7's amended theorem: in the concrete mouse-drag state, a
mouse-down is a no-op and the touch-start keeps the session and start
coordinate while recording identifier 7. -/
theorem second_drag_start_amended_witness :
    onMouseDown (mkDragState 2 0) 33 = (none, mkDragState 2 0) ∧
    (onTouchStart (mkDragState 2 0) [{ identifier := 7, clientX := 99 }]).2.beingDragged = true ∧
    (onTouchStart (mkDragState 2 0) [{ identifier := 7, clientX := 99 }]).2.dragStartingPoint =
      (mkDragState 2 0).dragStartingPoint ∧
    (onTouchStart (mkDragState 2 0) [{ identifier := 7, clientX := 99 }]).2 =
      { mkDragState 2 0 with touchId := 7 } := by
  obtain ⟨ha, hb, hc, -, he⟩ :=
    second_drag_start_amended (mkDragState 2 0) 33
      [{ identifier := 7, clientX := 99 }] (by rfl) (by rfl)
  exact ⟨ha, hb, hc, he { identifier := 7, clientX := 99 } [] rfl (by rfl)⟩


/-- C8: `disableDragging` with dragging not enabled is a no-op, `dragEnd`
on a closed session is a no-op (not an error), and `disableDragging`
during a drag first force-ends the session exactly as a pointer-up would —
rail transition restored, tracked touch cleared, final index resolved by
the threshold rule and committed — and only then detaches the listeners. -/
theorem disableDragging_force_ends (g : Geometry) (s : SlideshowState) :
    (s.draggable = false → disableDragging g s = (none, s)) ∧
    (s.beingDragged = false → dragEnd g s = (none, s)) ∧
    (s.draggable = true → s.beingDragged = true → 1 ≤ s.nSlides →
       (dragEnd g s).1 = none ∧
       disableDragging g s = (none, { (dragEnd g s).2 with draggable := false }) ∧
       (dragEnd g s).2.beingDragged = false ∧
       (dragEnd g s).2.touchId = 0 ∧
       (dragEnd g s).2.railTransitionOverride = false ∧
       (dragEnd g s).2.skipNextAutoplay = true ∧
       (dragEnd g s).2.activeIndex =
         ((specResolveIndex g.viewportLeft g.slideLeft s.nSlides : Nat) : Int)) := by
  refine ⟨fun h => ?_, fun h => ?_, fun hdr hd hn => ?_⟩
  · simp [disableDragging, h]
  · simp [dragEnd, h]
  · obtain ⟨ha, hb, hc, hd', he, hf, -, -, -⟩ := dragEnd_resolves g s hd hn
    refine ⟨ha, ?_, hc, hd', he, hf, hb⟩
    unfold disableDragging
    rcases hh : dragEnd g s with ⟨e, sx⟩
    rw [hh] at ha
    dsimp only at ha
    subst ha
    rw [if_neg (by rw [hdr]; simp)]

/-- Witness for C8: ending the concrete mouse drag over the dragged
geometry via `disableDragging` resolves index 1, restores the transition
and detaches; the no-op cases at concrete states. -/
theorem disableDragging_force_ends_witness :
    disableDragging gAligned { mkState 2 0 with draggable := false } =
      (none, { mkState 2 0 with draggable := false }) ∧
    dragEnd gAligned (mkState 2 0) = (none, mkState 2 0) ∧
    (disableDragging gDragged (mkDragState 5 0)).2.beingDragged = false ∧
    (dragEnd gDragged (mkDragState 5 0)).2.activeIndex = 1 := by
  obtain ⟨ha, -, -⟩ :=
    disableDragging_force_ends gAligned { mkState 2 0 with draggable := false }
  obtain ⟨-, hb, -⟩ := disableDragging_force_ends gAligned (mkState 2 0)
  obtain ⟨-, -, hc⟩ := disableDragging_force_ends gDragged (mkDragState 5 0)
  obtain ⟨-, hdis, hbd, -, -, -, hidx⟩ := hc (by rfl) (by rfl) (by decide)
  refine ⟨ha (by rfl), hb (by rfl), ?_, by rw [hidx]; rfl⟩
  rw [hdis]
  exact hbd

/-- A burst of `N ≥ 1` resize signals with no firing in between leaves
exactly the last armed timeout pending and runs no reconciliation. -/
theorem applySignals_burst :
    ∀ (N : Nat) (s : SlideshowState) (w : TimerWorld),
      w.pending = (if s.resizeId = 0 then [] else [s.resizeId]) →
      s.resizeId < w.nextId → 1 ≤ N →
      applySignals N s w =
        ({ s with resizeId := w.nextId + N - 1 },
         { pending := [w.nextId + N - 1], nextId := w.nextId + N,
           refreshRuns := w.refreshRuns }) := by
  intro N
  induction N with
  | zero => intro s w _ _ h; omega
  | succ N ih =>
      intro s w hp hr _
      have hstep : onResizeSignal s w =
          ({ s with resizeId := w.nextId },
           { pending := [w.nextId], nextId := w.nextId + 1,
             refreshRuns := w.refreshRuns }) := by
        unfold onResizeSignal jsClearTimeout jsSetTimeout
        dsimp only
        by_cases h0 : s.resizeId = 0
        · rw [if_neg (show ¬ 0 < s.resizeId by omega), hp, if_pos h0]
          simp
        · rw [if_pos (show 0 < s.resizeId by omega), hp, if_neg h0]
          dsimp only
          rw [List.erase_cons_head]
          simp
      show applySignals N (onResizeSignal s w).1 (onResizeSignal s w).2 = _
      rw [hstep]
      dsimp only
      by_cases hN : 1 ≤ N
      · rw [ih _ _ (by dsimp only; rw [if_neg (by omega)]) (by dsimp only; omega) hN]
        dsimp only
        have e1 : w.nextId + 1 + N - 1 = w.nextId + (N + 1) - 1 := by omega
        have e2 : w.nextId + 1 + N = w.nextId + (N + 1) := by omega
        rw [e1, e2]
      · have hN0 : N = 0 := by omega
        subst hN0
        have e1 : w.nextId + 1 - 1 = w.nextId := by omega
        rw [e1]
        rfl


/-- The world (timer table) left by `refresh` does not depend on the
animation branch: it is the input world with the pending resize timeout
cancelled. -/
theorem refresh_world (g : Geometry) (s : SlideshowState) (w : TimerWorld) :
    (refresh g s w).2 =
      (if 0 < s.resizeId then jsClearTimeout w s.resizeId else w) := by
  unfold refresh
  dsimp only
  split <;> split <;> rfl

/-- C9: resize reconciliation is debounced by cancel-then-reschedule — a
burst of N ≥ 1 resize signals (no timer firing in between) runs no
reconciliation itself and leaves exactly one timeout pending, the one
armed by the last signal; firing that timeout runs exactly one `refresh`
pass and empties the table, while firing any of the cancelled ids is a
complete no-op. -/
theorem resize_debounce (g : Geometry) (s : SlideshowState) (w : TimerWorld) (N : Nat)
    (hp : w.pending = (if s.resizeId = 0 then [] else [s.resizeId]))
    (hr : s.resizeId < w.nextId) (hN : 1 ≤ N) :
    (applySignals N s w).1.resizeId = w.nextId + N - 1 ∧
    (applySignals N s w).2.pending = [w.nextId + N - 1] ∧
    (applySignals N s w).2.refreshRuns = w.refreshRuns ∧
    (fireTimeout g (w.nextId + N - 1) (applySignals N s w).1
        (applySignals N s w).2).2.refreshRuns = w.refreshRuns + 1 ∧
    (fireTimeout g (w.nextId + N - 1) (applySignals N s w).1
        (applySignals N s w).2).2.pending = [] ∧
    (∀ id, id ≠ w.nextId + N - 1 →
       fireTimeout g id (applySignals N s w).1 (applySignals N s w).2 =
         ((none, (applySignals N s w).1), (applySignals N s w).2)) := by
  rw [applySignals_burst N s w hp hr hN]
  dsimp only
  have hfire :
      fireTimeout g (w.nextId + N - 1) { s with resizeId := w.nextId + N - 1 }
        { pending := [w.nextId + N - 1], nextId := w.nextId + N,
          refreshRuns := w.refreshRuns } =
      refresh g { s with resizeId := w.nextId + N - 1 }
        { pending := [], nextId := w.nextId + N, refreshRuns := w.refreshRuns + 1 } := by
    unfold fireTimeout
    rw [if_pos (by simp)]
    dsimp only
    rw [List.erase_cons_head]
  refine ⟨rfl, rfl, rfl, ?_, ?_, fun id hid => ?_⟩
  · rw [hfire, refresh_world]
    split <;> rfl
  · rw [hfire, refresh_world]
    dsimp only
    rw [if_pos (by omega)]
    rfl
  · unfold fireTimeout
    rw [if_neg (by simp [hid])]

/-- Witness for C9: from a quiescent start (`nextId = 1`), a burst of 3
resize signals leaves only timeout 3 pending and no pass run; firing id 3
runs exactly one pass; firing the cancelled id 1 changes nothing. -/
theorem resize_debounce_witness :
    (applySignals 3 (mkState 2 0) { pending := [], nextId := 1, refreshRuns := 0 }).2.pending = [3] ∧
    (applySignals 3 (mkState 2 0) { pending := [], nextId := 1, refreshRuns := 0 }).2.refreshRuns = 0 ∧
    (fireTimeout gAligned 3
      (applySignals 3 (mkState 2 0) { pending := [], nextId := 1, refreshRuns := 0 }).1
      (applySignals 3 (mkState 2 0) { pending := [], nextId := 1, refreshRuns := 0 }).2).2.refreshRuns = 1 ∧
    (fireTimeout gAligned 1
      (applySignals 3 (mkState 2 0) { pending := [], nextId := 1, refreshRuns := 0 }).1
      (applySignals 3 (mkState 2 0) { pending := [], nextId := 1, refreshRuns := 0 }).2) =
      ((none, (applySignals 3 (mkState 2 0) { pending := [], nextId := 1, refreshRuns := 0 }).1),
       (applySignals 3 (mkState 2 0) { pending := [], nextId := 1, refreshRuns := 0 }).2) := by
  obtain ⟨-, hb, hc, hd, -, hf⟩ :=
    resize_debounce gAligned (mkState 2 0) { pending := [], nextId := 1, refreshRuns := 0 } 3
      (by rfl) (by decide) (by decide)
  exact ⟨hb, hc, hd, hf 1 (by decide)⟩

/-- C10: a touch-start whose first changed touch has identifier 0 starts a
DragSession but leaves `touchId = 0`, the "no tracked touch" sentinel; so
`findTouch` returns `undefined` for every later event and all touch-move /
touch-end events are ignored, while a mouse-up (or `disableDragging`)
still ends the session. -/
theorem touch_identifier_zero_sentinel (g : Geometry) (s : SlideshowState)
    (t : TouchPoint) (rest : List TouchPoint)
    (hdr : s.draggable = true) (ht : s.touchId = 0)
    (hnd : s.beingDragged = false) (hid : t.identifier = 0) :
    (onTouchStart s (t :: rest)).1 = none ∧
    (onTouchStart s (t :: rest)).2.beingDragged = true ∧
    (onTouchStart s (t :: rest)).2.touchId = 0 ∧
    (∀ touches, findTouch (onTouchStart s (t :: rest)).2 touches = none) ∧
    (∀ touches, onTouchMove (onTouchStart s (t :: rest)).2 touches =
       (onTouchStart s (t :: rest)).2) ∧
    (∀ touches, onTouchEnd g (onTouchStart s (t :: rest)).2 touches =
       (none, (onTouchStart s (t :: rest)).2)) ∧
    (1 ≤ s.nSlides →
       (onMouseUp g (onTouchStart s (t :: rest)).2).1 = none ∧
       (onMouseUp g (onTouchStart s (t :: rest)).2).2.beingDragged = false ∧
       (disableDragging g (onTouchStart s (t :: rest)).2).1 = none ∧
       (disableDragging g (onTouchStart s (t :: rest)).2).2.beingDragged = false) := by
  have hstart : onTouchStart s (t :: rest) =
      (none,
       { s with
         touchId := 0
         railTransitionOverride := true
         dragStartingPoint := t.clientX
         beingDragged := true }) := by
    unfold onTouchStart dragStart
    simp [hdr, ht, hid, hnd]
  rw [hstart]
  dsimp only
  set s1 : SlideshowState :=
    { s with
      touchId := 0
      railTransitionOverride := true
      dragStartingPoint := t.clientX
      beingDragged := true } with hs1
  have ht1 : s1.touchId = 0 := rfl
  have hd1 : s1.beingDragged = true := rfl
  have hfind : ∀ touches, findTouch s1 touches = none := by
    intro touches
    unfold findTouch
    rw [if_pos ht1]
  refine ⟨rfl, rfl, rfl, hfind, fun touches => ?_, fun touches => ?_, fun hn => ?_⟩
  · unfold onTouchMove
    rw [hd1, hfind touches]
    rfl
  · unfold onTouchEnd
    rw [hd1, hfind touches]
    rfl
  · have hn1 : 1 ≤ s1.nSlides := hn
    obtain ⟨ha, -, hc, -, -, -, -, -, -⟩ := dragEnd_resolves g s1 hd1 hn1
    have hmu : onMouseUp g s1 = dragEnd g s1 := by
      unfold onMouseUp
      rw [hd1]
      rfl
    have hdr1 : s1.draggable = true := hdr
    refine ⟨by rw [hmu]; exact ha, by rw [hmu]; exact hc, ?_, ?_⟩
    · unfold disableDragging
      rcases hh : dragEnd g s1 with ⟨e, sx⟩
      rw [hh] at ha
      dsimp only at ha
      subst ha
      rw [if_neg (by rw [hdr1]; simp)]
    · unfold disableDragging
      rcases hh : dragEnd g s1 with ⟨e, sx⟩
      rw [hh] at ha hc
      dsimp only at ha hc
      subst ha
      rw [if_neg (by rw [hdr1]; simp)]
      exact hc


/-- Witness for C10: a touch with identifier 0 starts a session that its
own touch-move/touch-end cannot affect, while a mouse-up ends it. -/
theorem touch_identifier_zero_sentinel_witness :
    (onTouchStart (mkState 2 0) [{ identifier := 0, clientX := 50 }]).2.beingDragged = true ∧
    (onTouchStart (mkState 2 0) [{ identifier := 0, clientX := 50 }]).2.touchId = 0 ∧
    onTouchMove (onTouchStart (mkState 2 0) [{ identifier := 0, clientX := 50 }]).2
      [{ identifier := 0, clientX := 70 }] =
      (onTouchStart (mkState 2 0) [{ identifier := 0, clientX := 50 }]).2 ∧
    onTouchEnd gAligned (onTouchStart (mkState 2 0) [{ identifier := 0, clientX := 50 }]).2
      [{ identifier := 0, clientX := 70 }] =
      (none, (onTouchStart (mkState 2 0) [{ identifier := 0, clientX := 50 }]).2) ∧
    (onMouseUp gAligned
      (onTouchStart (mkState 2 0) [{ identifier := 0, clientX := 50 }]).2).2.beingDragged = false := by
  obtain ⟨-, hb, hc, -, he, hf, hg⟩ :=
    touch_identifier_zero_sentinel gAligned (mkState 2 0)
      { identifier := 0, clientX := 50 } [] (by rfl) (by rfl) (by rfl) (by rfl)
  obtain ⟨-, hmu, -, -⟩ := hg (by decide)
  exact ⟨hb, hc, he _, hf _, hmu⟩

end SimpleSlideshow
